import Mathlib

/-!
# Verification of the fault-tolerant recommendation service

Shallow embedding of the circuit-breaker state machine
(`src/recommendation-service/src/circuitBreaker.js`) and of the
recommendation pipeline (`src/recommendation-service/src/app.js`),
with theorems settling the specification's claims about them.

Time is modelled as a natural-number timestamp in milliseconds
(`Date.now()`); elapsed-time comparisons use integer arithmetic as in
JavaScript. The failure-rate arithmetic of the source (IEEE doubles on
small integer counts) is modelled with rationals. The downstream call
wrapped by `execute` is modelled by its outcome: `true` for a success,
`false` for any failure (timeout, upstream error, transport error) —
the breaker treats all failure kinds identically.
-/

namespace CircuitBreaker

/-- The three breaker states (`STATE` in the source). -/
inductive BState where
  | CLOSED
  | OPEN
  | HALF_OPEN
deriving DecidableEq, Repr

open BState

/-- Immutable per-instance configuration (constructor options). The
request timeout is not modelled: the timing of the wrapped call is
outside the state machine, which only sees the outcome. -/
structure Config where
  windowSize : Nat
  failureRateThreshold : ℚ
  consecutiveFailureThreshold : Nat
  openStateDuration : Nat
  halfOpenMaxTrials : Nat
deriving Repr

/-- The defaults of the constructor (`options.x ?? default`). -/
def Config.default : Config :=
  { windowSize := 10
    failureRateThreshold := 1/2
    consecutiveFailureThreshold := 5
    openStateDuration := 30000
    halfOpenMaxTrials := 3 }

/-- Mutable breaker state (the `_`-prefixed fields of the class). The
window holds booleans, `true` = success, `false` = failure, oldest
first. -/
structure Breaker where
  state : BState
  window : List Bool
  consecutiveFailures : Nat
  openedAt : Option Nat
  halfOpenTrials : Nat
  halfOpenSuccesses : Nat
  totalSuccess : Nat
  totalFailure : Nat
deriving DecidableEq, Repr

/-- The freshly constructed breaker. -/
def Breaker.init : Breaker :=
  { state := CLOSED
    window := []
    consecutiveFailures := 0
    openedAt := none
    halfOpenTrials := 0
    halfOpenSuccesses := 0
    totalSuccess := 0
    totalFailure := 0 }

/-- `_transition(newState)`: set the state and do the per-target
bookkeeping. `now` stands for `Date.now()` at the moment of the
transition. -/
def transition (now : Nat) (b : Breaker) (newState : BState) : Breaker :=
  match newState with
  | OPEN =>
      { b with state := OPEN, openedAt := some now,
               halfOpenTrials := 0, halfOpenSuccesses := 0 }
  | HALF_OPEN =>
      { b with state := HALF_OPEN, openedAt := none,
               halfOpenTrials := 0, halfOpenSuccesses := 0 }
  | CLOSED =>
      { b with state := CLOSED, openedAt := none,
               halfOpenTrials := 0, halfOpenSuccesses := 0,
               consecutiveFailures := 0, window := [] }

/-- `_recordResult(success)`: push the outcome, evicting the oldest
entry when the window overflows. -/
def recordResult (cfg : Config) (b : Breaker) (success : Bool) : Breaker :=
  let w := b.window ++ [success]
  { b with window := if w.length > cfg.windowSize then w.tail else w }

/-- `_getFailureRate()`: fraction of `false` entries in the window,
`0` when the window is empty. -/
def getFailureRate (b : Breaker) : ℚ :=
  if b.window.length = 0 then 0
  else (b.window.countP (fun r => !r) : ℚ) / (b.window.length : ℚ)

/-- `_maybeTransitionFromOpen()`: if OPEN long enough, move to
HALF_OPEN. The source compares `Date.now() - openedAt >=
openStateDuration` with signed arithmetic, modelled on ℤ. -/
def maybeTransitionFromOpen (cfg : Config) (now : Nat) (b : Breaker) : Breaker :=
  if b.state = OPEN then
    match b.openedAt with
    | some t =>
        if (now : ℤ) - (t : ℤ) ≥ (cfg.openStateDuration : ℤ) then
          transition now b HALF_OPEN
        else b
    | none => b
  else b

/-- `_onSuccess()`. -/
def onSuccess (cfg : Config) (now : Nat) (b : Breaker) : Breaker :=
  let b := { b with totalSuccess := b.totalSuccess + 1, consecutiveFailures := 0 }
  let b := recordResult cfg b true
  if b.state = HALF_OPEN then
    let b := { b with halfOpenSuccesses := b.halfOpenSuccesses + 1 }
    if b.halfOpenSuccesses ≥ cfg.halfOpenMaxTrials then transition now b CLOSED
    else b
  else b

/-- `_onFailure(err)`. -/
def onFailure (cfg : Config) (now : Nat) (b : Breaker) : Breaker :=
  let b := { b with totalFailure := b.totalFailure + 1,
                    consecutiveFailures := b.consecutiveFailures + 1 }
  let b := recordResult cfg b false
  if b.state = HALF_OPEN then
    transition now b OPEN
  else if b.state = CLOSED then
    if b.consecutiveFailures ≥ cfg.consecutiveFailureThreshold then
      transition now b OPEN
    else if b.window.length ≥ cfg.windowSize ∧ getFailureRate b ≥ cfg.failureRateThreshold then
      transition now b OPEN
    else b
  else b

/-- The observable result of one `execute` call: the wrapped value or
error propagates unchanged on an admitted call, so only
admitted-success, admitted-failure and rejection are distinguished.
A rejection carries the breaker state at rejection time
(`CircuitOpenError(name, state)`). -/
inductive ExecResult where
  | succeeded
  | failed
  | rejectedOpen (st : BState)
deriving DecidableEq, Repr

/-- `execute(fn)`: time-driven check, admission decision, then outcome
handling. `outcome` is what the wrapped call would produce were it
invoked (`true` = success); a rejected call never invokes it. -/
def execute (cfg : Config) (now : Nat) (b : Breaker) (outcome : Bool) :
    ExecResult × Breaker :=
  let b := maybeTransitionFromOpen cfg now b
  if b.state = OPEN then
    (ExecResult.rejectedOpen b.state, b)
  else if b.state = HALF_OPEN ∧ b.halfOpenTrials ≥ cfg.halfOpenMaxTrials then
    (ExecResult.rejectedOpen b.state, b)
  else
    let b := if b.state = HALF_OPEN then
               { b with halfOpenTrials := b.halfOpenTrials + 1 }
             else b
    if outcome then (ExecResult.succeeded, onSuccess cfg now b)
    else (ExecResult.failed, onFailure cfg now b)

/-- The `state` getter (`current_state()` of the spec): runs the
time-driven check, then returns the state. -/
def currentState (cfg : Config) (now : Nat) (b : Breaker) : BState × Breaker :=
  let b := maybeTransitionFromOpen cfg now b
  (b.state, b)

/-- Embedding of `x.toFixed(1)` for a non-negative rational: nearest
multiple of 1/10, ties picking the larger value, rendered as
"<integer>.<digit>". -/
def toFixed1 (q : ℚ) : String :=
  let n : Nat := (⌊q * 10 + 1/2⌋).toNat
  toString (n / 10) ++ "." ++ toString (n % 10)

/-- The metrics snapshot returned by `getMetrics()`. -/
structure Metrics where
  state : BState
  failureRate : String
  successfulCalls : Nat
  failedCalls : Nat
  windowFailureRate : String
  consecutiveFailures : Nat
  halfOpenTrials : String
deriving DecidableEq, Repr

/-- `getMetrics()`: time-driven check, then the snapshot. Returns the
snapshot alongside the (possibly transitioned) breaker. -/
def getMetrics (cfg : Config) (now : Nat) (b : Breaker) : Metrics × Breaker :=
  let b := maybeTransitionFromOpen cfg now b
  let totalCalls := b.totalSuccess + b.totalFailure
  ({ state := b.state
     failureRate :=
       if totalCalls > 0 then
         toFixed1 (((b.totalFailure : ℚ) / (totalCalls : ℚ)) * 100) ++ "%"
       else "0.0%"
     successfulCalls := b.totalSuccess
     failedCalls := b.totalFailure
     windowFailureRate :=
       if b.window.length > 0 then
         toFixed1 (((b.window.countP (fun r => !r) : ℚ) / (b.window.length : ℚ)) * 100) ++ "%"
       else "0.0%"
     consecutiveFailures := b.consecutiveFailures
     halfOpenTrials :=
       if b.state = HALF_OPEN then
         toString b.halfOpenSuccesses ++ "/" ++ toString cfg.halfOpenMaxTrials
       else "N/A" }, b)

/-- `reset()`: transition to CLOSED, then zero the aggregate
counters. -/
def reset (now : Nat) (b : Breaker) : Breaker :=
  let b := transition now b CLOSED
  { b with totalSuccess := 0, totalFailure := 0 }

/-- The invariants I1–I4 of the specification's data model:
`opened_at` present iff the state is OPEN, `half_open_successes ≤
half_open_trials ≤ half_open_max_trials`, and the window never longer
than `window_size`. -/
def BreakerInv (cfg : Config) (b : Breaker) : Prop :=
  (b.openedAt.isSome ↔ b.state = OPEN) ∧
  b.halfOpenSuccesses ≤ b.halfOpenTrials ∧
  b.halfOpenTrials ≤ cfg.halfOpenMaxTrials ∧
  b.window.length ≤ cfg.windowSize

instance (cfg : Config) (b : Breaker) : Decidable (BreakerInv cfg b) := by
  unfold BreakerInv; infer_instance

/-- One externally observable breaker operation: an `execute` call
with the given downstream outcome, a `getMetrics` read, a `reset`, or
a read of the `state` getter. -/
inductive BOp where
  | exec (outcome : Bool)
  | metricsRead
  | resetCall
  | stateRead
deriving DecidableEq, Repr

/-- Apply one operation at timestamp `now`, keeping the resulting
breaker. -/
def applyOp (cfg : Config) (now : Nat) (b : Breaker) : BOp → Breaker
  | .exec o => (execute cfg now b o).2
  | .metricsRead => (getMetrics cfg now b).2
  | .resetCall => reset now b
  | .stateRead => (currentState cfg now b).2

/-- Run a list of timestamped operations starting from the freshly
constructed breaker (most recent operation first). -/
def runOps (cfg : Config) : List (Nat × BOp) → Breaker
  | [] => Breaker.init
  | op :: rest => applyOp cfg op.1 (runOps cfg rest) op.2

/-- Specification-side formatting of `num/den` as "a percentage with
one decimal plus %": the number of tenths of a percent rounded half
up, written over pure natural-number arithmetic, rendered as
"<integer>.<digit>%". To be compared with the source-side
`toFixed1`-based fields of `getMetrics`. -/
def specPercent (num den : Nat) : String :=
  let tenths : Nat := (num * 2000 + den) / (2 * den)
  toString (tenths / 10) ++ "." ++ toString (tenths % 10) ++ "%"

end CircuitBreaker

namespace Pipeline

/-- A movie record as served by the content and trending services. -/
structure Movie where
  movieId : Nat
  title : String
  genre : String
deriving DecidableEq, Repr

/-- Parsed body of a successful `GET /users/{id}` response. -/
structure ProfileBody where
  userId : String
  preferences : List String
deriving DecidableEq, Repr

/-- `DEFAULT_PREFERENCES` in `app.js`. -/
def DEFAULT_PREFERENCES : List String := ["Comedy", "Family"]

/-- The user-preferences object assembled by the handler. -/
structure UserPrefs where
  userId : String
  preferences : List String
deriving DecidableEq, Repr

/-- The three response shapes of `GET /recommendations/:userId`:
the normal 200 body (with its optional comma-joined
`fallback_triggered_for` field), the 200 trending-fallback body, and
the 503 all-down body. -/
inductive RecResponse where
  | normal (userPreferences : UserPrefs) (recommendations : List Movie)
      (fallbackTriggeredFor : Option String)
  | trendingFallback (message : String) (trending : List Movie)
      (fallbackTriggeredFor : String)
  | allDown (error : String) (fallbackTriggeredFor : String)
deriving DecidableEq, Repr

/-- The HTTP status code of each response shape (`res.json` defaults
to 200; the all-down branch uses `res.status(503)`). -/
def RecResponse.status : RecResponse → Nat
  | .normal _ _ _ => 200
  | .trendingFallback _ _ _ => 200
  | .allDown _ _ => 503

/-- The handler's full observable outcome: the response plus whether
the trending service was contacted. -/
structure RecOutcome where
  response : RecResponse
  trendingCalled : Bool
deriving DecidableEq, Repr

/-- `fallbacksTriggered.join(', ')`. -/
def joinFallbacks (fallbacks : List String) : String :=
  String.intercalate ", " fallbacks

/-- The `GET /recommendations/:userId` handler, modelled over the
outcomes of its three upstream interactions: `profileRes` is the
result of the user-profile breaker call (`.error ()` for any failure,
`rejected_open` included); `contentRes` is the result of the content
breaker call, whose payload is `some movies` when the body's `movies`
field is present and truthy and `none` otherwise (`response.movies ||
[]`); `trendingRes` is the direct trending call, consulted only when
the content step produced no value. -/
def recommend (userId : String)
    (profileRes : Except Unit ProfileBody)
    (contentRes : Except Unit (Option (List Movie)))
    (trendingRes : Except Unit (List Movie)) : RecOutcome :=
  let step1 :=
    match profileRes with
    | .ok r => (UserPrefs.mk r.userId r.preferences, ([] : List String))
    | .error _ => (UserPrefs.mk userId DEFAULT_PREFERENCES, ["user-profile-service"])
  let userPreferences := step1.1
  let step2 :=
    match contentRes with
    | .ok body => (some (body.getD []), ([] : List String))
    | .error _ => (none, ["content-service"])
  let recommendations := step2.1
  let fallbacksTriggered := step1.2 ++ step2.2
  match recommendations with
  | none =>
      match trendingRes with
      | .ok trending =>
          { response := RecResponse.trendingFallback
              "Our recommendation service is temporarily degraded. Here are some trending movies."
              trending (joinFallbacks fallbacksTriggered)
            trendingCalled := true }
      | .error _ =>
          { response := RecResponse.allDown
              "All services are currently unavailable. Please try again shortly."
              (joinFallbacks fallbacksTriggered)
            trendingCalled := true }
  | some recs =>
      { response := RecResponse.normal userPreferences recs
          (if fallbacksTriggered.length > 0 then some (joinFallbacks fallbacksTriggered)
           else none)
        trendingCalled := false }

/-- The `fallbacksTriggered` list a request accumulates, as a function
of the two breaker-call outcomes: step A appends
"user-profile-service" on failure, step B appends "content-service"
on failure. -/
def fallbacksOf (profileRes : Except Unit ProfileBody)
    (contentRes : Except Unit (Option (List Movie))) : List String :=
  (match profileRes with
    | .ok _ => ([] : List String)
    | .error _ => ["user-profile-service"]) ++
  (match contentRes with
    | .ok _ => ([] : List String)
    | .error _ => ["content-service"])

end Pipeline

namespace CircuitBreaker

theorem recordResult_state (cfg : Config) (b : Breaker) (s : Bool) :
    (recordResult cfg b s).state = b.state := rfl

theorem recordResult_consecutiveFailures (cfg : Config) (b : Breaker) (s : Bool) :
    (recordResult cfg b s).consecutiveFailures = b.consecutiveFailures := rfl

theorem recordResult_openedAt (cfg : Config) (b : Breaker) (s : Bool) :
    (recordResult cfg b s).openedAt = b.openedAt := rfl

theorem recordResult_halfOpenTrials (cfg : Config) (b : Breaker) (s : Bool) :
    (recordResult cfg b s).halfOpenTrials = b.halfOpenTrials := rfl

theorem recordResult_halfOpenSuccesses (cfg : Config) (b : Breaker) (s : Bool) :
    (recordResult cfg b s).halfOpenSuccesses = b.halfOpenSuccesses := rfl

theorem transition_open_window (now : Nat) (b : Breaker) :
    (transition now b BState.OPEN).window = b.window := rfl

theorem transition_open_state (now : Nat) (b : Breaker) :
    (transition now b BState.OPEN).state = BState.OPEN := rfl

theorem getFailureRate_transition_open (now : Nat) (b : Breaker) :
    getFailureRate (transition now b BState.OPEN) = getFailureRate b := rfl

theorem maybeTransitionFromOpen_not_open (cfg : Config) (now : Nat) (b : Breaker)
    (h : b.state ≠ BState.OPEN) : maybeTransitionFromOpen cfg now b = b := by
  unfold maybeTransitionFromOpen
  simp [h]

theorem execute_closed (cfg : Config) (now : Nat) (b : Breaker) (o : Bool)
    (h : b.state = BState.CLOSED) :
    execute cfg now b o =
      if o then (ExecResult.succeeded, onSuccess cfg now b)
      else (ExecResult.failed, onFailure cfg now b) := by
  unfold execute
  rw [maybeTransitionFromOpen_not_open cfg now b (by rw [h]; intro hc; cases hc)]
  dsimp only
  rw [h]
  simp

theorem onFailure_closed (cfg : Config) (now : Nat) (b b2 : Breaker)
    (h : b.state = BState.CLOSED)
    (hb2 : b2 = recordResult cfg
      { b with totalFailure := b.totalFailure + 1,
               consecutiveFailures := b.consecutiveFailures + 1 } false) :
    onFailure cfg now b =
      if cfg.consecutiveFailureThreshold ≤ b.consecutiveFailures + 1 then
        transition now b2 BState.OPEN
      else if cfg.windowSize ≤ b2.window.length ∧
              cfg.failureRateThreshold ≤ getFailureRate b2 then
        transition now b2 BState.OPEN
      else b2 := by
  subst hb2
  unfold onFailure
  simp only [recordResult_state, recordResult_consecutiveFailures, h, ge_iff_le]
  simp

/-- C1: in CLOSED, after an admitted call fails, the trip conditions
are evaluated in order: reaching the consecutive-failure threshold
(with `≥`) opens the breaker regardless of the window; otherwise the
breaker opens exactly when the updated window is full (`≥
window_size`) and its failure rate reaches the rate threshold (`≥`);
in particular, with the window not yet full no rate-based trip
occurs. -/
theorem closed_failure_trip (cfg : Config) (now : Nat) (b : Breaker)
    (h : b.state = BState.CLOSED) :
    (cfg.consecutiveFailureThreshold ≤ b.consecutiveFailures + 1 →
       ((execute cfg now b false).2).state = BState.OPEN) ∧
    (b.consecutiveFailures + 1 < cfg.consecutiveFailureThreshold →
       (((execute cfg now b false).2).state = BState.OPEN ↔
         (cfg.windowSize ≤ ((execute cfg now b false).2).window.length ∧
          cfg.failureRateThreshold ≤ getFailureRate ((execute cfg now b false).2)))) := by
  obtain ⟨b2, hb2⟩ : ∃ b2, b2 = recordResult cfg
      { b with totalFailure := b.totalFailure + 1,
               consecutiveFailures := b.consecutiveFailures + 1 } false := ⟨_, rfl⟩
  have hb2st : b2.state = BState.CLOSED := by rw [hb2, recordResult_state]; exact h
  rw [execute_closed cfg now b false h, if_neg (by simp),
    onFailure_closed cfg now b b2 h hb2]
  constructor
  · intro hcf
    simp only [if_pos hcf]
    exact transition_open_state now b2
  · intro hcf
    have hcf' : ¬ cfg.consecutiveFailureThreshold ≤ b.consecutiveFailures + 1 := by omega
    rw [if_neg hcf']
    split_ifs with hcond
    · simp only [transition_open_state, transition_open_window,
        getFailureRate_transition_open]
      exact iff_of_true trivial hcond
    · rw [hb2st]
      constructor
      · intro hc; cases hc
      · intro hc; exact absurd hc hcond

theorem currentState_fst (cfg : Config) (now : Nat) (b : Breaker) :
    (currentState cfg now b).1 = (maybeTransitionFromOpen cfg now b).state := rfl

theorem getMetrics_state (cfg : Config) (now : Nat) (b : Breaker) :
    (getMetrics cfg now b).1.state = (maybeTransitionFromOpen cfg now b).state := rfl

/-- C2: for a breaker OPEN since `opened_at = t`, any `execute`,
`getMetrics` or state read at time `now` with `now − t ≥
open_state_duration` first moves the breaker to HALF_OPEN (so exactly
at `t + open_state_duration` the reported state is HALF_OPEN), while
with `now − t < open_state_duration` the breaker stays OPEN and
`execute` fast-fails. -/
theorem open_time_transition (cfg : Config) (b : Breaker) (t now : Nat) (o : Bool)
    (hst : b.state = BState.OPEN) (hoa : b.openedAt = some t) :
    (t + cfg.openStateDuration ≤ now →
       (currentState cfg now b).1 = BState.HALF_OPEN ∧
       (getMetrics cfg now b).1.state = BState.HALF_OPEN ∧
       execute cfg now b o = execute cfg now (transition now b BState.HALF_OPEN) o) ∧
    (now < t + cfg.openStateDuration →
       (currentState cfg now b).1 = BState.OPEN ∧
       (getMetrics cfg now b).1.state = BState.OPEN ∧
       execute cfg now b o = (ExecResult.rejectedOpen BState.OPEN, b)) := by
  constructor
  · intro hle
    have hmb : maybeTransitionFromOpen cfg now b = transition now b BState.HALF_OPEN := by
      unfold maybeTransitionFromOpen
      rw [hst, hoa]
      have hc : (now : ℤ) - (t : ℤ) ≥ (cfg.openStateDuration : ℤ) := by omega
      simp [hc]
    refine ⟨?_, ?_, ?_⟩
    · rw [currentState_fst, hmb]; rfl
    · rw [getMetrics_state, hmb]; rfl
    · unfold execute
      dsimp only
      rw [hmb, maybeTransitionFromOpen_not_open cfg now (transition now b BState.HALF_OPEN)
        (by simp [transition])]
  · intro hlt
    have hmb : maybeTransitionFromOpen cfg now b = b := by
      unfold maybeTransitionFromOpen
      rw [hst, hoa]
      have hc : ¬ ((now : ℤ) - (t : ℤ) ≥ (cfg.openStateDuration : ℤ)) := by omega
      simp [hc]
    refine ⟨?_, ?_, ?_⟩
    · rw [currentState_fst, hmb, hst]
    · rw [getMetrics_state, hmb, hst]
    · unfold execute
      dsimp only
      rw [hmb, hst]
      simp

/-- Witness for C2 at the default configuration: a breaker opened at
time 0 reads HALF_OPEN at exactly 30000 ms and still OPEN at
29999 ms. -/
theorem open_time_transition_witness :
    ((0 : Nat) + Config.default.openStateDuration ≤ 30000 ∧
     (currentState Config.default 30000
        { Breaker.init with state := BState.OPEN, openedAt := some 0 }).1 =
       BState.HALF_OPEN) ∧
    ((29999 : Nat) < 0 + Config.default.openStateDuration ∧
     (currentState Config.default 29999
        { Breaker.init with state := BState.OPEN, openedAt := some 0 }).1 =
       BState.OPEN) := by
  constructor
  · exact ⟨by decide,
      ((open_time_transition Config.default _ 0 30000 true rfl rfl).1 (by decide)).1⟩
  · exact ⟨by decide,
      ((open_time_transition Config.default _ 0 29999 true rfl rfl).2 (by decide)).1⟩

/-- C3: in HALF_OPEN, `execute` admits a call iff `half_open_trials <
half_open_max_trials` and rejects with `rejected_open` (carrying
HALF_OPEN) otherwise; admission increments `half_open_trials` (visible
when the probe does not close the breaker); a successful probe
increments `half_open_successes` and closes the breaker once that
count reaches `half_open_max_trials`; a failing probe reopens the
breaker immediately with `opened_at = now`. -/
theorem half_open_execute (cfg : Config) (now : Nat) (b : Breaker) (o : Bool)
    (h : b.state = BState.HALF_OPEN) :
    (cfg.halfOpenMaxTrials ≤ b.halfOpenTrials →
       execute cfg now b o = (ExecResult.rejectedOpen BState.HALF_OPEN, b)) ∧
    (b.halfOpenTrials < cfg.halfOpenMaxTrials →
       (o = true →
          (execute cfg now b o).1 = ExecResult.succeeded ∧
          (cfg.halfOpenMaxTrials ≤ b.halfOpenSuccesses + 1 →
             ((execute cfg now b o).2).state = BState.CLOSED) ∧
          (b.halfOpenSuccesses + 1 < cfg.halfOpenMaxTrials →
             ((execute cfg now b o).2).state = BState.HALF_OPEN ∧
             ((execute cfg now b o).2).halfOpenSuccesses = b.halfOpenSuccesses + 1 ∧
             ((execute cfg now b o).2).halfOpenTrials = b.halfOpenTrials + 1)) ∧
       (o = false →
          (execute cfg now b o).1 = ExecResult.failed ∧
          ((execute cfg now b o).2).state = BState.OPEN ∧
          ((execute cfg now b o).2).openedAt = some now)) := by
  obtain ⟨st, w, cf, oa, ht, hs, ts, tf⟩ := b
  cases h
  dsimp only
  refine ⟨?_, ?_⟩
  · intro hmax
    simp [execute, maybeTransitionFromOpen, ge_iff_le, hmax]
  · intro hlt
    have hmax' : ¬ cfg.halfOpenMaxTrials ≤ ht := by omega
    refine ⟨?_, ?_⟩
    · rintro rfl
      refine ⟨?_, ?_, ?_⟩
      · simp [execute, maybeTransitionFromOpen, ge_iff_le, hmax']
      · intro hclose
        simp [execute, maybeTransitionFromOpen, onSuccess, recordResult, transition,
          ge_iff_le, hmax', hclose]
      · intro hnc
        have hnc' : ¬ cfg.halfOpenMaxTrials ≤ hs + 1 := by omega
        simp [execute, maybeTransitionFromOpen, onSuccess, recordResult, transition,
          ge_iff_le, hmax', hnc']
    · rintro rfl
      refine ⟨?_, ?_, ?_⟩ <;>
        simp [execute, maybeTransitionFromOpen, onFailure, recordResult, transition,
          ge_iff_le, hmax']

/-- Witness for C3 at the default configuration: with two recorded
probe successes, a third successful probe closes the breaker. -/
theorem half_open_execute_witness :
    (0 : Nat) < Config.default.halfOpenMaxTrials ∧
    ((execute Config.default 5
        { Breaker.init with state := BState.HALF_OPEN,
                            halfOpenTrials := 2, halfOpenSuccesses := 2 } true).2).state =
      BState.CLOSED := by
  refine ⟨by decide, ?_⟩
  have h := half_open_execute Config.default 5
    { Breaker.init with state := BState.HALF_OPEN,
                        halfOpenTrials := 2, halfOpenSuccesses := 2 } true rfl
  exact ((h.2 (by decide)).1 rfl).2.1 (by decide)

theorem maybeTransitionFromOpen_frame (cfg : Config) (now : Nat) (b : Breaker) :
    (maybeTransitionFromOpen cfg now b).window = b.window ∧
    (maybeTransitionFromOpen cfg now b).consecutiveFailures = b.consecutiveFailures ∧
    (maybeTransitionFromOpen cfg now b).totalSuccess = b.totalSuccess ∧
    (maybeTransitionFromOpen cfg now b).totalFailure = b.totalFailure := by
  unfold maybeTransitionFromOpen
  split
  · split
    · split
      · exact ⟨rfl, rfl, rfl, rfl⟩
      · exact ⟨rfl, rfl, rfl, rfl⟩
    · exact ⟨rfl, rfl, rfl, rfl⟩
  · exact ⟨rfl, rfl, rfl, rfl⟩

/-- C4: a rejected `execute` call (state OPEN after the time-driven
check, or HALF_OPEN with all trials allocated) fails with
`rejected_open` carrying the current state, never invokes the wrapped
operation (the result is independent of what the operation would
return), appends nothing to the window, and leaves
`consecutive_failures`, `total_success` and `total_failure`
unchanged. -/
theorem execute_rejection_frame (cfg : Config) (now : Nat) (b : Breaker) (o : Bool)
    (h : (maybeTransitionFromOpen cfg now b).state = BState.OPEN ∨
         ((maybeTransitionFromOpen cfg now b).state = BState.HALF_OPEN ∧
          cfg.halfOpenMaxTrials ≤ (maybeTransitionFromOpen cfg now b).halfOpenTrials)) :
    (execute cfg now b o).1 =
      ExecResult.rejectedOpen (maybeTransitionFromOpen cfg now b).state ∧
    execute cfg now b o = execute cfg now b (!o) ∧
    ((execute cfg now b o).2).window = b.window ∧
    ((execute cfg now b o).2).consecutiveFailures = b.consecutiveFailures ∧
    ((execute cfg now b o).2).totalSuccess = b.totalSuccess ∧
    ((execute cfg now b o).2).totalFailure = b.totalFailure := by
  have hfr := maybeTransitionFromOpen_frame cfg now b
  have hex : ∀ o' : Bool, execute cfg now b o' =
      (ExecResult.rejectedOpen (maybeTransitionFromOpen cfg now b).state,
       maybeTransitionFromOpen cfg now b) := by
    intro o'
    unfold execute
    dsimp only
    rcases h with h1 | ⟨h1, h2⟩
    · rw [if_pos h1]
    · rw [if_neg (by rw [h1]; intro hc; cases hc), if_pos ⟨h1, h2⟩]
  rw [hex o, hex (!o)]
  exact ⟨rfl, rfl, hfr.1, hfr.2.1, hfr.2.2.1, hfr.2.2.2⟩

/-- Witness for C4: a breaker opened at time 0 rejects an `execute`
at time 0 with `rejected_open` carrying OPEN. -/
theorem execute_rejection_frame_witness :
    (execute Config.default 0
        { Breaker.init with state := BState.OPEN, openedAt := some 0 } true).1 =
      ExecResult.rejectedOpen BState.OPEN := by
  have h := execute_rejection_frame Config.default 0
    { Breaker.init with state := BState.OPEN, openedAt := some 0 } true
    (Or.inl (by decide))
  rw [h.1]
  decide

theorem getMetrics_snd (cfg : Config) (now : Nat) (b : Breaker) :
    (getMetrics cfg now b).2 = maybeTransitionFromOpen cfg now b := rfl

theorem currentState_snd (cfg : Config) (now : Nat) (b : Breaker) :
    (currentState cfg now b).2 = maybeTransitionFromOpen cfg now b := rfl

theorem recordResult_window_le (cfg : Config) (b : Breaker) (s : Bool)
    (h : b.window.length ≤ cfg.windowSize) :
    (recordResult cfg b s).window.length ≤ cfg.windowSize := by
  unfold recordResult
  dsimp only
  split_ifs with hlen
  · simp only [List.length_tail, List.length_append, List.length_cons,
      List.length_nil]
    omega
  · simp only [List.length_append, List.length_cons, List.length_nil] at hlen ⊢
    omega

theorem inv_init (cfg : Config) : BreakerInv cfg Breaker.init := by
  refine ⟨by simp [Breaker.init], Nat.le_refl 0, Nat.zero_le _, ?_⟩
  simp [Breaker.init]

theorem inv_maybeTransitionFromOpen (cfg : Config) (now : Nat) (b : Breaker)
    (h : BreakerInv cfg b) : BreakerInv cfg (maybeTransitionFromOpen cfg now b) := by
  obtain ⟨h1, h2, h3, h4⟩ := h
  unfold maybeTransitionFromOpen
  split
  · split
    · split
      · exact ⟨by simp [transition], Nat.le_refl 0, Nat.zero_le _,
          by simpa [transition] using h4⟩
      · exact ⟨h1, h2, h3, h4⟩
    · exact ⟨h1, h2, h3, h4⟩
  · exact ⟨h1, h2, h3, h4⟩

theorem inv_onSuccess (cfg : Config) (now : Nat) (b : Breaker)
    (hoa : b.openedAt = none) (hst : b.state ≠ BState.OPEN)
    (hw : b.window.length ≤ cfg.windowSize)
    (hs1 : b.halfOpenSuccesses ≤ b.halfOpenTrials)
    (hs2 : b.state = BState.HALF_OPEN →
      b.halfOpenSuccesses + 1 ≤ b.halfOpenTrials)
    (ht3 : b.halfOpenTrials ≤ cfg.halfOpenMaxTrials) :
    BreakerInv cfg (onSuccess cfg now b) := by
  unfold onSuccess
  dsimp only
  rw [recordResult_state]
  by_cases hho : b.state = BState.HALF_OPEN
  · rw [if_pos hho]
    dsimp only
    simp only [recordResult_halfOpenSuccesses, ge_iff_le]
    by_cases hclose : cfg.halfOpenMaxTrials ≤ b.halfOpenSuccesses + 1
    · rw [if_pos hclose]
      exact ⟨by simp [transition], Nat.le_refl 0, Nat.zero_le _,
        by simp [transition]⟩
    · rw [if_neg hclose]
      refine ⟨?_, ?_, ?_, ?_⟩
      · simp [recordResult_state, recordResult_openedAt, hoa, hho]
      · simpa [recordResult_halfOpenTrials, recordResult_halfOpenSuccesses]
          using hs2 hho
      · simpa [recordResult_halfOpenTrials] using ht3
      · exact recordResult_window_le cfg _ true hw
  · rw [if_neg hho]
    refine ⟨?_, ?_, ?_, ?_⟩
    · simp [recordResult_state, recordResult_openedAt, hoa, hst]
    · simpa [recordResult_halfOpenTrials, recordResult_halfOpenSuccesses]
        using hs1
    · simpa [recordResult_halfOpenTrials] using ht3
    · exact recordResult_window_le cfg _ true hw

theorem inv_onFailure (cfg : Config) (now : Nat) (b : Breaker)
    (hoa : b.openedAt = none) (hst : b.state ≠ BState.OPEN)
    (hw : b.window.length ≤ cfg.windowSize)
    (hs1 : b.halfOpenSuccesses ≤ b.halfOpenTrials)
    (ht3 : b.halfOpenTrials ≤ cfg.halfOpenMaxTrials) :
    BreakerInv cfg (onFailure cfg now b) := by
  have hrec : ∀ b' : Breaker, b' = recordResult cfg
      { b with totalFailure := b.totalFailure + 1,
               consecutiveFailures := b.consecutiveFailures + 1 } false →
      BreakerInv cfg b' := by
    intro b' hb'
    refine ⟨?_, ?_, ?_, ?_⟩
    · rw [hb', recordResult_state, recordResult_openedAt]
      simp [hoa, hst]
    · rw [hb', recordResult_halfOpenTrials, recordResult_halfOpenSuccesses]
      exact hs1
    · rw [hb', recordResult_halfOpenTrials]
      exact ht3
    · rw [hb']
      exact recordResult_window_le cfg _ false hw
  have hopen : ∀ b' : Breaker, b'.window.length ≤ cfg.windowSize →
      BreakerInv cfg (transition now b' BState.OPEN) := by
    intro b' hb'
    exact ⟨by simp [transition], Nat.le_refl 0, Nat.zero_le _,
      by simpa [transition] using hb'⟩
  unfold onFailure
  dsimp only
  rw [recordResult_state]
  by_cases hho : b.state = BState.HALF_OPEN
  · rw [if_pos hho]
    exact hopen _ ((hrec _ rfl).2.2.2)
  · rw [if_neg hho]
    by_cases hcl : b.state = BState.CLOSED
    · rw [if_pos hcl]
      simp only [recordResult_consecutiveFailures, ge_iff_le]
      split_ifs with htrip hrate
      · exact hopen _ ((hrec _ rfl).2.2.2)
      · exact hopen _ ((hrec _ rfl).2.2.2)
      · exact hrec _ rfl
    · rw [if_neg hcl]
      exact hrec _ rfl

theorem inv_execute (cfg : Config) (now : Nat) (b : Breaker) (o : Bool)
    (h : BreakerInv cfg b) : BreakerInv cfg ((execute cfg now b o).2) := by
  have hm := inv_maybeTransitionFromOpen cfg now b h
  unfold execute
  dsimp only
  revert hm
  generalize maybeTransitionFromOpen cfg now b = m
  intro hm
  obtain ⟨h1, h2, h3, h4⟩ := hm
  by_cases hopen : m.state = BState.OPEN
  · simp only [hopen, if_pos rfl]
    exact ⟨h1, h2, h3, h4⟩
  · rw [if_neg hopen]
    have hoa : m.openedAt = none := by
      rcases hoam : m.openedAt with _ | t
      · rfl
      · exact absurd (h1.mp (by rw [hoam]; rfl)) hopen
    by_cases hho : m.state = BState.HALF_OPEN
    · by_cases hfull : m.halfOpenTrials ≥ cfg.halfOpenMaxTrials
      · rw [if_pos ⟨hho, hfull⟩]
        exact ⟨h1, h2, h3, h4⟩
      · rw [if_neg (by intro hc; exact hfull hc.2), if_pos hho]
        have htlt : m.halfOpenTrials < cfg.halfOpenMaxTrials := by omega
        cases o
        · exact inv_onFailure cfg now _ hoa (by rw [hho]; intro hc; cases hc)
            h4 (Nat.le_succ_of_le h2) htlt
        · exact inv_onSuccess cfg now _ hoa (by rw [hho]; intro hc; cases hc)
            h4 (Nat.le_succ_of_le h2) (fun _ => by dsimp only; omega) htlt
    · rw [if_neg (by intro hc; exact hho hc.1), if_neg hho]
      cases o
      · exact inv_onFailure cfg now m hoa hopen h4 h2 h3
      · exact inv_onSuccess cfg now m hoa hopen h4 h2
          (fun hc => absurd hc hho) h3

theorem inv_reset (cfg : Config) (now : Nat) (b : Breaker) :
    BreakerInv cfg (reset now b) := by
  refine ⟨by simp [reset, transition], Nat.le_refl 0, Nat.zero_le _, ?_⟩
  simp [reset, transition]

theorem inv_applyOp (cfg : Config) (now : Nat) (b : Breaker) (op : BOp)
    (h : BreakerInv cfg b) : BreakerInv cfg (applyOp cfg now b op) := by
  cases op with
  | exec o => exact inv_execute cfg now b o h
  | metricsRead =>
      rw [applyOp, getMetrics_snd]
      exact inv_maybeTransitionFromOpen cfg now b h
  | resetCall => exact inv_reset cfg now b
  | stateRead =>
      rw [applyOp, currentState_snd]
      exact inv_maybeTransitionFromOpen cfg now b h

/-- C5: after every sequence of externally observable breaker
operations starting from a fresh breaker, `opened_at` is present iff
the state is OPEN, `half_open_successes ≤ half_open_trials ≤
half_open_max_trials`, and the window length never exceeds
`window_size`. -/
theorem breaker_invariants (cfg : Config) (ops : List (Nat × BOp)) :
    BreakerInv cfg (runOps cfg ops) := by
  induction ops with
  | nil => exact inv_init cfg
  | cons op rest ih => exact inv_applyOp cfg op.1 (runOps cfg rest) op.2 ih

theorem onSuccess_totalSuccess (cfg : Config) (now : Nat) (b : Breaker) :
    (onSuccess cfg now b).totalSuccess = b.totalSuccess + 1 := by
  unfold onSuccess
  dsimp only
  split_ifs <;> rfl

theorem onSuccess_totalFailure (cfg : Config) (now : Nat) (b : Breaker) :
    (onSuccess cfg now b).totalFailure = b.totalFailure := by
  unfold onSuccess
  dsimp only
  split_ifs <;> rfl

theorem onFailure_totalSuccess (cfg : Config) (now : Nat) (b : Breaker) :
    (onFailure cfg now b).totalSuccess = b.totalSuccess := by
  unfold onFailure
  dsimp only
  split_ifs <;> rfl

theorem onFailure_totalFailure (cfg : Config) (now : Nat) (b : Breaker) :
    (onFailure cfg now b).totalFailure = b.totalFailure + 1 := by
  unfold onFailure
  dsimp only
  split_ifs <;> rfl

/-- C9: `reset()` called in any state returns the breaker to its
freshly constructed value: state CLOSED, empty window, zeroed
consecutive and half-open counters, cleared `opened_at`, and zeroed
`total_success`/`total_failure`; and no other operation modifies the
aggregate counters except `execute` incrementing them by one on an
outcome — in particular every `_transition` leaves them untouched. -/
theorem reset_and_totals (cfg : Config) (now : Nat) (b : Breaker) :
    reset now b = Breaker.init ∧
    (∀ s : BState, (transition now b s).totalSuccess = b.totalSuccess ∧
       (transition now b s).totalFailure = b.totalFailure) ∧
    (∀ o : Bool, (((execute cfg now b o).2).totalSuccess = b.totalSuccess ∨
         ((execute cfg now b o).2).totalSuccess = b.totalSuccess + 1) ∧
       (((execute cfg now b o).2).totalFailure = b.totalFailure ∨
         ((execute cfg now b o).2).totalFailure = b.totalFailure + 1)) ∧
    ((getMetrics cfg now b).2.totalSuccess = b.totalSuccess ∧
     (getMetrics cfg now b).2.totalFailure = b.totalFailure) ∧
    ((currentState cfg now b).2.totalSuccess = b.totalSuccess ∧
     (currentState cfg now b).2.totalFailure = b.totalFailure) := by
  have hfr := maybeTransitionFromOpen_frame cfg now b
  refine ⟨?_, ?_, ?_, ?_, ?_⟩
  · obtain ⟨st, w, cf, oa, ht, hs, ts, tf⟩ := b
    rfl
  · intro s
    cases s <;> exact ⟨rfl, rfl⟩
  · intro o
    unfold execute
    dsimp only
    split_ifs <;>
      exact ⟨by simp [onSuccess_totalSuccess, onSuccess_totalFailure,
               onFailure_totalSuccess, onFailure_totalFailure,
               hfr.2.2.1, hfr.2.2.2],
             by simp [onSuccess_totalSuccess, onSuccess_totalFailure,
               onFailure_totalSuccess, onFailure_totalFailure,
               hfr.2.2.1, hfr.2.2.2]⟩
  · rw [getMetrics_snd]
    exact ⟨hfr.2.2.1, hfr.2.2.2⟩
  · rw [currentState_snd]
    exact ⟨hfr.2.2.1, hfr.2.2.2⟩

theorem toFixed1_pct (num den : Nat) (h : 0 < den) :
    toFixed1 (((num : ℚ) / (den : ℚ)) * 100) ++ "%" = specPercent num den := by
  unfold toFixed1 specPercent
  dsimp only
  have key : ((num : ℚ) / (den : ℚ)) * 100 * 10 + 1/2
      = ((num * 2000 + den : ℕ) : ℚ) / ((2 * den : ℕ) : ℚ) := by
    have hden : ((den : ℚ)) ≠ 0 := by positivity
    push_cast
    field_simp
    ring
  rw [key, Rat.floor_natCast_div_natCast, ← Int.natCast_div, Int.toNat_natCast]

/-- C8: after the time-driven check, `getMetrics` reports
`failureRate` as `total_failure / (total_success + total_failure)`
formatted as a percentage with one decimal and a "%" sign (the
literal "0.0%" when no call has completed), `windowFailureRate` in
the same format over the current window ("0.0%" when the window is
empty), and `halfOpenTrials` as "{successes}/{max}" exactly when the
state is HALF_OPEN and the literal "N/A" otherwise. -/
theorem metrics_report (cfg : Config) (now : Nat) (b : Breaker) :
    ((getMetrics cfg now b).2.totalSuccess + (getMetrics cfg now b).2.totalFailure = 0 →
       (getMetrics cfg now b).1.failureRate = "0.0%") ∧
    (0 < (getMetrics cfg now b).2.totalSuccess + (getMetrics cfg now b).2.totalFailure →
       (getMetrics cfg now b).1.failureRate =
         specPercent (getMetrics cfg now b).2.totalFailure
           ((getMetrics cfg now b).2.totalSuccess +
             (getMetrics cfg now b).2.totalFailure)) ∧
    ((getMetrics cfg now b).2.window.length = 0 →
       (getMetrics cfg now b).1.windowFailureRate = "0.0%") ∧
    (0 < (getMetrics cfg now b).2.window.length →
       (getMetrics cfg now b).1.windowFailureRate =
         specPercent ((getMetrics cfg now b).2.window.countP (fun r => !r))
           (getMetrics cfg now b).2.window.length) ∧
    ((getMetrics cfg now b).2.state = BState.HALF_OPEN →
       (getMetrics cfg now b).1.halfOpenTrials =
         toString (getMetrics cfg now b).2.halfOpenSuccesses ++ "/" ++
           toString cfg.halfOpenMaxTrials) ∧
    ((getMetrics cfg now b).2.state ≠ BState.HALF_OPEN →
       (getMetrics cfg now b).1.halfOpenTrials = "N/A") := by
  unfold getMetrics
  dsimp only
  generalize maybeTransitionFromOpen cfg now b = m
  refine ⟨?_, ?_, ?_, ?_, ?_, ?_⟩
  · intro h0
    rw [if_neg (by omega)]
  · intro hpos
    rw [if_pos hpos]
    exact toFixed1_pct _ _ hpos
  · intro h0
    rw [if_neg (by omega)]
  · intro hpos
    rw [if_pos hpos]
    exact toFixed1_pct _ _ hpos
  · intro hho
    rw [if_pos hho]
  · intro hho
    rw [if_neg hho]

/-- Witness for C8: one success and one failure report a 50.0% total
failure rate, and a CLOSED breaker reports "N/A" for half-open
trials. -/
theorem metrics_report_witness :
    (getMetrics Config.default 0
       { Breaker.init with totalSuccess := 1, totalFailure := 1 }).1.failureRate =
      specPercent 1 2 ∧
    (getMetrics Config.default 0
       { Breaker.init with totalSuccess := 1, totalFailure := 1 }).1.halfOpenTrials =
      "N/A" := by
  constructor
  · exact (metrics_report Config.default 0
      { Breaker.init with totalSuccess := 1, totalFailure := 1 }).2.1 (by decide)
  · exact (metrics_report Config.default 0
      { Breaker.init with totalSuccess := 1, totalFailure := 1 }).2.2.2.2.2
        (by decide)

/-- Witness for C1 at the default configuration: a fifth consecutive
failure in CLOSED opens the breaker, while a first failure with an
empty window leaves it CLOSED. -/
theorem closed_failure_trip_witness :
    ((execute Config.default 0
        { Breaker.init with consecutiveFailures := 4 } false).2).state = BState.OPEN ∧
    ((execute Config.default 0 Breaker.init false).2).state = BState.CLOSED := by
  constructor
  · exact (closed_failure_trip Config.default 0
      { Breaker.init with consecutiveFailures := 4 } rfl).1 (by decide)
  · decide

end CircuitBreaker

namespace Pipeline

/-- C6: the trending service is contacted iff the content step
produced no value (i.e. the content breaker call failed),
independently of the user-profile outcome; on trending success the
response is the 200 degradation body with the upstream trending list
and the comma-joined fallback names; on trending failure it is the
503 all-down body. -/
theorem trending_fallback_behavior (u : String) (p : Except Unit ProfileBody)
    (c : Except Unit (Option (List Movie))) (t : Except Unit (List Movie)) :
    ((recommend u p c t).trendingCalled = true ↔ c = Except.error ()) ∧
    (∀ p' : Except Unit ProfileBody,
       (recommend u p c t).trendingCalled = (recommend u p' c t).trendingCalled) ∧
    (∀ tr : List Movie, c = Except.error () → t = Except.ok tr →
       (recommend u p c t).response =
         RecResponse.trendingFallback
           "Our recommendation service is temporarily degraded. Here are some trending movies."
           tr (joinFallbacks (fallbacksOf p c)) ∧
       ((recommend u p c t).response).status = 200) ∧
    (c = Except.error () → t = Except.error () →
       (recommend u p c t).response =
         RecResponse.allDown
           "All services are currently unavailable. Please try again shortly."
           (joinFallbacks (fallbacksOf p c)) ∧
       ((recommend u p c t).response).status = 503) := by
  rcases p with ⟨⟨⟩⟩ | pb <;> rcases c with ⟨⟨⟩⟩ | body <;> rcases t with ⟨⟨⟩⟩ | tr <;>
    exact ⟨by simp [recommend], fun _ => rfl,
      by intro tr' h1 h2; cases h1 <;> cases h2 <;> exact ⟨rfl, rfl⟩,
      by intro h1 h2; cases h1 <;> cases h2 <;> exact ⟨rfl, rfl⟩⟩

/-- Witness for C6: both breaker calls failed and trending answered,
so the response is the degradation body naming both services. -/
theorem trending_fallback_behavior_witness :
    (recommend "u1" (Except.error ()) (Except.error ())
       (Except.ok [Movie.mk 1 "A" "G"])).response =
      RecResponse.trendingFallback
        "Our recommendation service is temporarily degraded. Here are some trending movies."
        [Movie.mk 1 "A" "G"]
        (joinFallbacks (fallbacksOf (Except.error ()) (Except.error ()))) := by
  exact ((trending_fallback_behavior "u1" (Except.error ()) (Except.error ())
    (Except.ok [Movie.mk 1 "A" "G"])).2.2.1 [Movie.mk 1 "A" "G"] rfl rfl).1

/-- C7: when the user-profile breaker call fails (any failure,
`rejected_open` included — all failure kinds reach the same catch
branch), the handler substitutes `DEFAULT_PREFERENCES` and the
received user id and records the "user-profile-service" fallback;
with the content step succeeding, the normal response carries
`fallback_triggered_for` exactly when a fallback was recorded. -/
theorem profile_fallback_defaults (u : String) (pb : ProfileBody)
    (body : Option (List Movie)) (t : Except Unit (List Movie)) :
    (recommend u (Except.error ()) (Except.ok body) t).response =
      RecResponse.normal (UserPrefs.mk u DEFAULT_PREFERENCES) (body.getD [])
        (some (joinFallbacks ["user-profile-service"])) ∧
    (recommend u (Except.ok pb) (Except.ok body) t).response =
      RecResponse.normal (UserPrefs.mk pb.userId pb.preferences) (body.getD [])
        none := by
  exact ⟨rfl, rfl⟩

/-- C10: a content call that succeeds with a body whose `movies`
field is missing or falsy yields the normal 200 response with an
empty recommendation list, no trending call, and no
"content-service" fallback entry. -/
theorem content_missing_movies (u : String) (pb : ProfileBody)
    (t : Except Unit (List Movie)) :
    recommend u (Except.ok pb) (Except.ok none) t =
      { response := RecResponse.normal (UserPrefs.mk pb.userId pb.preferences) [] none
        trendingCalled := false } ∧
    recommend u (Except.error ()) (Except.ok none) t =
      { response := RecResponse.normal (UserPrefs.mk u DEFAULT_PREFERENCES) []
          (some (joinFallbacks ["user-profile-service"]))
        trendingCalled := false } ∧
    ((recommend u (Except.ok pb) (Except.ok none) t).response).status = 200 ∧
    (∀ p : Except Unit ProfileBody,
       "content-service" ∉ fallbacksOf p (Except.ok none)) := by
  refine ⟨rfl, rfl, rfl, ?_⟩
  intro p
  rcases p with ⟨⟨⟩⟩ | pb'
  · simp [fallbacksOf]
  · simp [fallbacksOf]

end Pipeline
